import Mathlib

/-!
Shallow embedding of the SSNTP role / identity machinery of
`ssntp/ssntp.go` (package ssntp of the ciao repository), together with
proofs of the specified properties.

Roles are 32-bit masks; all role arithmetic in the source stays far below
2^32, so they are modelled as `Nat` with the bitwise operations `&&&` and
`|||`.  ASN.1 object identifiers are integer sequences compared
component-wise (`asn1.ObjectIdentifier.Equal`), modelled as `List Nat`.
-/

namespace Ssntp

/-- SSNTP role bit: unknown role (`UNKNOWN Role = 0x0`). -/
def UNKNOWN : Nat := 0x0

/-- SSNTP role bit: server (`SERVER = 0x1`). -/
def SERVER : Nat := 0x1

/-- SSNTP role bit: the command and status reporter (`Controller = 0x2`). -/
def Controller : Nat := 0x2

/-- SSNTP role bit: cloud compute node agent (`AGENT = 0x4`). -/
def AGENT : Nat := 0x4

/-- SSNTP role bit: workload scheduler (`SCHEDULER = 0x8`). -/
def SCHEDULER : Nat := 0x8

/-- SSNTP role bit: networking compute node agent (`NETAGENT = 0x10`). -/
def NETAGENT : Nat := 0x10

/-- SSNTP role bit: CNCI agent (`CNCIAGENT = 0x20`). -/
def CNCIAGENT : Nat := 0x20

/-- ASN.1 object identifiers, compared component-wise. -/
abbrev OID := List Nat

/-- `RoleAgentOID = asn1.ObjectIdentifier{1, 3, 6, 1, 4, 1, 343, 8, 1}`. -/
def RoleAgentOID : OID := [1, 3, 6, 1, 4, 1, 343, 8, 1]

/-- `RoleSchedulerOID = asn1.ObjectIdentifier{1, 3, 6, 1, 4, 1, 343, 8, 2}`. -/
def RoleSchedulerOID : OID := [1, 3, 6, 1, 4, 1, 343, 8, 2]

/-- `RoleControllerOID = asn1.ObjectIdentifier{1, 3, 6, 1, 4, 1, 343, 8, 3}`. -/
def RoleControllerOID : OID := [1, 3, 6, 1, 4, 1, 343, 8, 3]

/-- `RoleNetAgentOID = asn1.ObjectIdentifier{1, 3, 6, 1, 4, 1, 343, 8, 4}`. -/
def RoleNetAgentOID : OID := [1, 3, 6, 1, 4, 1, 343, 8, 4]

/-- `RoleServerOID = asn1.ObjectIdentifier{1, 3, 6, 1, 4, 1, 343, 8, 5}`. -/
def RoleServerOID : OID := [1, 3, 6, 1, 4, 1, 343, 8, 5]

/-- `RoleCNCIAgentOID = asn1.ObjectIdentifier{1, 3, 6, 1, 4, 1, 343, 8, 6}`. -/
def RoleCNCIAgentOID : OID := [1, 3, 6, 1, 4, 1, 343, 8, 6]

/-- The `roleOID` table of ssntp.go (lines 847-875): pairs of a role bit
and its object identifier, in the source's order. -/
def roleOID : List (Nat × OID) :=
  [(AGENT, RoleAgentOID),
   (SCHEDULER, RoleSchedulerOID),
   (Controller, RoleControllerOID),
   (NETAGENT, RoleNetAgentOID),
   (SERVER, RoleServerOID),
   (CNCIAGENT, RoleCNCIAgentOID)]

/-- `getRoleFromOIDs` (ssntp.go lines 877-889): starting from `UNKNOWN`,
for each OID of the argument and each row of `roleOID`, or the row's role
bit into the accumulator when the row's OID equals the argument OID. -/
def getRoleFromOIDs (oids : List OID) : Nat :=
  oids.foldl
    (fun role oid =>
      roleOID.foldl (fun r p => if p.2 = oid then r ||| p.1 else r) role)
    UNKNOWN

/-- `getOIDsFromRole` (ssntp.go lines 891-904): collect the OIDs of the
table rows whose role bit is contained in `role`; when none is collected
the Go function returns `nil` and a non-nil error, modelled as the empty
list paired with `some` error tag. -/
def getOIDsFromRole (role : Nat) : List OID × Option String :=
  let oids :=
    roleOID.foldl (fun acc p => if role &&& p.1 = p.1 then acc ++ [p.2] else acc) []
  if oids.length = 0 then ([], some "Unknown role") else (oids, none)

/-- Net effect of the inner loop of `getRoleFromOIDs` starting from role 0:
the role bits of all table rows whose OID equals `oid`. -/
def roleOfOID (oid : OID) : Nat :=
  roleOID.foldl (fun r p => if p.2 = oid then r ||| p.1 else r) 0

/-- Folding an or-accumulating function factors the initial accumulator out. -/
theorem foldl_or {α : Type} (f : Nat → α → Nat) (hf : ∀ r p, f r p = r ||| f 0 p) :
    ∀ (l : List α) (a : Nat), l.foldl f a = a ||| l.foldl f 0 := by
  intro l
  induction l with
  | nil => intro a; exact (Nat.or_zero a).symm
  | cons p l ih =>
    intro a
    simp only [List.foldl_cons]
    rw [ih (f a p), ih (f 0 p), hf a p, hf 0 p, Nat.zero_or, Nat.or_assoc]

/-- The inner table loop of `getRoleFromOIDs` ors `roleOfOID oid` into the
running role. -/
theorem inner_foldl_eq (oid : OID) (role : Nat) :
    roleOID.foldl (fun r p => if p.2 = oid then r ||| p.1 else r) role
      = role ||| roleOfOID oid := by
  refine foldl_or _ ?_ roleOID role
  intro r p
  split
  · rw [Nat.zero_or]
  · rw [Nat.or_zero]

/-- Unfolding `getRoleFromOIDs` one OID at a time. -/
theorem getRoleFromOIDs_cons (o : OID) (os : List OID) :
    getRoleFromOIDs (o :: os) = roleOfOID o ||| getRoleFromOIDs os := by
  unfold getRoleFromOIDs
  simp only [List.foldl_cons]
  rw [inner_foldl_eq o UNKNOWN]
  show List.foldl _ (UNKNOWN ||| roleOfOID o) os = _
  rw [foldl_or _ (fun r oid => by rw [inner_foldl_eq, inner_foldl_eq, Nat.zero_or]) os]
  simp only [UNKNOWN, Nat.zero_or]

theorem or_lcomm (a b c : Nat) : a ||| (b ||| c) = b ||| (a ||| c) := by
  rw [← Nat.or_assoc, Nat.or_comm a b, Nat.or_assoc]

theorem or_ite_absorb (b t : Nat) (x : Prop) [Decidable x] :
    b ||| ((if x then b else 0) ||| t) = b ||| t := by
  split
  · rw [← Nat.or_assoc, Nat.or_self]
  · rw [← Nat.or_assoc, Nat.or_zero]

theorem or_ite_absorb_last (b : Nat) (x : Prop) [Decidable x] :
    b ||| (if x then b else 0) = b := by
  split
  · rw [Nat.or_self]
  · rw [Nat.or_zero]

/-- The bitwise union of the role bits whose OID occurs in `oids`: the
specified meaning of certificate-role extraction. -/
def unionOfPresent (oids : List OID) : Nat :=
  (if RoleAgentOID ∈ oids then AGENT else 0) |||
   ((if RoleSchedulerOID ∈ oids then SCHEDULER else 0) |||
    ((if RoleControllerOID ∈ oids then Controller else 0) |||
     ((if RoleNetAgentOID ∈ oids then NETAGENT else 0) |||
      ((if RoleServerOID ∈ oids then SERVER else 0) |||
       (if RoleCNCIAgentOID ∈ oids then CNCIAGENT else 0)))))

/-- C10: `getRoleFromOIDs` is total and silently ignores unrecognised OIDs:
for every list of object identifiers it returns exactly the bitwise union of
the role bits whose OID occurs in the list; OIDs outside the six-entry role
table contribute no bits, and a list containing no recognised OID yields
UNKNOWN (0x0) rather than an error. -/
theorem getRoleFromOIDs_union_of_present (oids : List OID) :
    getRoleFromOIDs oids = unionOfPresent oids := by
  induction oids with
  | nil => decide
  | cons o os ih =>
    rw [getRoleFromOIDs_cons, ih]
    unfold unionOfPresent
    by_cases h1 : o = RoleAgentOID
    · subst h1
      rw [(by decide : roleOfOID RoleAgentOID = AGENT)]
      simp only [List.mem_cons, eq_self_iff_true, true_or, if_true,
        (by decide : ¬(RoleSchedulerOID = RoleAgentOID)),
        (by decide : ¬(RoleControllerOID = RoleAgentOID)),
        (by decide : ¬(RoleNetAgentOID = RoleAgentOID)),
        (by decide : ¬(RoleServerOID = RoleAgentOID)),
        (by decide : ¬(RoleCNCIAgentOID = RoleAgentOID)), false_or]
      rw [or_ite_absorb]
    · by_cases h2 : o = RoleSchedulerOID
      · subst h2
        rw [(by decide : roleOfOID RoleSchedulerOID = SCHEDULER)]
        simp only [List.mem_cons, eq_self_iff_true, true_or, if_true,
          (by decide : ¬(RoleAgentOID = RoleSchedulerOID)),
          (by decide : ¬(RoleControllerOID = RoleSchedulerOID)),
          (by decide : ¬(RoleNetAgentOID = RoleSchedulerOID)),
          (by decide : ¬(RoleServerOID = RoleSchedulerOID)),
          (by decide : ¬(RoleCNCIAgentOID = RoleSchedulerOID)), false_or]
        rw [or_lcomm SCHEDULER, or_ite_absorb]
      · by_cases h3 : o = RoleControllerOID
        · subst h3
          rw [(by decide : roleOfOID RoleControllerOID = Controller)]
          simp only [List.mem_cons, eq_self_iff_true, true_or, if_true,
            (by decide : ¬(RoleAgentOID = RoleControllerOID)),
            (by decide : ¬(RoleSchedulerOID = RoleControllerOID)),
            (by decide : ¬(RoleNetAgentOID = RoleControllerOID)),
            (by decide : ¬(RoleServerOID = RoleControllerOID)),
            (by decide : ¬(RoleCNCIAgentOID = RoleControllerOID)), false_or]
          rw [or_lcomm Controller, or_lcomm Controller, or_ite_absorb]
        · by_cases h4 : o = RoleNetAgentOID
          · subst h4
            rw [(by decide : roleOfOID RoleNetAgentOID = NETAGENT)]
            simp only [List.mem_cons, eq_self_iff_true, true_or, if_true,
              (by decide : ¬(RoleAgentOID = RoleNetAgentOID)),
              (by decide : ¬(RoleSchedulerOID = RoleNetAgentOID)),
              (by decide : ¬(RoleControllerOID = RoleNetAgentOID)),
              (by decide : ¬(RoleServerOID = RoleNetAgentOID)),
              (by decide : ¬(RoleCNCIAgentOID = RoleNetAgentOID)), false_or]
            rw [or_lcomm NETAGENT, or_lcomm NETAGENT, or_lcomm NETAGENT,
              or_ite_absorb]
          · by_cases h5 : o = RoleServerOID
            · subst h5
              rw [(by decide : roleOfOID RoleServerOID = SERVER)]
              simp only [List.mem_cons, eq_self_iff_true, true_or, if_true,
                (by decide : ¬(RoleAgentOID = RoleServerOID)),
                (by decide : ¬(RoleSchedulerOID = RoleServerOID)),
                (by decide : ¬(RoleControllerOID = RoleServerOID)),
                (by decide : ¬(RoleNetAgentOID = RoleServerOID)),
                (by decide : ¬(RoleCNCIAgentOID = RoleServerOID)), false_or]
              rw [or_lcomm SERVER, or_lcomm SERVER, or_lcomm SERVER,
                or_lcomm SERVER, or_ite_absorb]
            · by_cases h6 : o = RoleCNCIAgentOID
              · subst h6
                rw [(by decide : roleOfOID RoleCNCIAgentOID = CNCIAGENT)]
                simp only [List.mem_cons, eq_self_iff_true, true_or, if_true,
                  (by decide : ¬(RoleAgentOID = RoleCNCIAgentOID)),
                  (by decide : ¬(RoleSchedulerOID = RoleCNCIAgentOID)),
                  (by decide : ¬(RoleControllerOID = RoleCNCIAgentOID)),
                  (by decide : ¬(RoleNetAgentOID = RoleCNCIAgentOID)),
                  (by decide : ¬(RoleServerOID = RoleCNCIAgentOID)), false_or]
                rw [or_lcomm CNCIAGENT, or_lcomm CNCIAGENT, or_lcomm CNCIAGENT,
                  or_lcomm CNCIAGENT, or_lcomm CNCIAGENT, or_ite_absorb_last]
              · have n1 : ¬(RoleAgentOID = o) := fun h => h1 h.symm
                have n2 : ¬(RoleSchedulerOID = o) := fun h => h2 h.symm
                have n3 : ¬(RoleControllerOID = o) := fun h => h3 h.symm
                have n4 : ¬(RoleNetAgentOID = o) := fun h => h4 h.symm
                have n5 : ¬(RoleServerOID = o) := fun h => h5 h.symm
                have n6 : ¬(RoleCNCIAgentOID = o) := fun h => h6 h.symm
                have hz : roleOfOID o = 0 := by
                  simp [roleOfOID, roleOID, n1, n2, n3, n4, n5, n6]
                rw [hz, Nat.zero_or]
                simp only [List.mem_cons, n1, n2, n3, n4, n5, n6, false_or]

/-- Exhaustive check of the role/OID roundtrip over all 64 unions of the
six defined role bits. -/
theorem roundtrip_bounded :
    ∀ r, r < 64 → getRoleFromOIDs (getOIDsFromRole r).1 = r := by decide

/-- C1: for every role bitmask `r` representable as a union of the defined
role bits, mapping `r` to its OID list with `getOIDsFromRole` and mapping
that list back with `getRoleFromOIDs` yields `r` again. -/
theorem role_oid_roundtrip (r : Nat)
    (hr : r &&& (SERVER ||| Controller ||| AGENT ||| SCHEDULER ||| NETAGENT ||| CNCIAGENT) = r) :
    getRoleFromOIDs (getOIDsFromRole r).1 = r := by
  have hb : r < 64 := by
    have h1 : r &&& (SERVER ||| Controller ||| AGENT ||| SCHEDULER ||| NETAGENT ||| CNCIAGENT) ≤ 63 :=
      Nat.and_le_right
    omega
  exact roundtrip_bounded r hb

/-- Witness for C1 at the concrete mask SERVER|AGENT|CNCIAGENT = 0x25. -/
theorem role_oid_roundtrip_witness :
    getRoleFromOIDs (getOIDsFromRole 0x25).1 = 0x25 :=
  role_oid_roundtrip 0x25 (by decide)

/-- C8: the role-to-OID mapping is the 1:1 table under prefix
1.3.6.1.4.1.343.8.n with AGENT = ...8.1, SCHEDULER = ...8.2,
Controller = ...8.3, NETAGENT = ...8.4, SERVER = ...8.5,
CNCIAGENT = ...8.6: each role bit is carried by exactly one table row,
that row holds the stated identifier, and no two rows share a role bit or
an identifier. -/
theorem roleOID_table_exact :
    (roleOID.filter (fun p => p.1 = AGENT)).map (fun p => p.2)
        = [[1, 3, 6, 1, 4, 1, 343, 8, 1]]
    ∧ (roleOID.filter (fun p => p.1 = SCHEDULER)).map (fun p => p.2)
        = [[1, 3, 6, 1, 4, 1, 343, 8, 2]]
    ∧ (roleOID.filter (fun p => p.1 = Controller)).map (fun p => p.2)
        = [[1, 3, 6, 1, 4, 1, 343, 8, 3]]
    ∧ (roleOID.filter (fun p => p.1 = NETAGENT)).map (fun p => p.2)
        = [[1, 3, 6, 1, 4, 1, 343, 8, 4]]
    ∧ (roleOID.filter (fun p => p.1 = SERVER)).map (fun p => p.2)
        = [[1, 3, 6, 1, 4, 1, 343, 8, 5]]
    ∧ (roleOID.filter (fun p => p.1 = CNCIAGENT)).map (fun p => p.2)
        = [[1, 3, 6, 1, 4, 1, 343, 8, 6]]
    ∧ roleOID.Pairwise (fun p q => p.1 ≠ q.1 ∧ p.2 ≠ q.2) := by
  refine ⟨by decide, by decide, by decide, by decide, by decide, by decide, ?_⟩
  decide

/-- Abridged form of the role-OID mismatch error message of `verifyRole`. -/
def oidErrorMsg : String :=
  "Wrong certificate or missing/mismatched role OID"

/-- The shape of the connection handed to `verifyRole`: either a TLS
connection whose peer certificate carries the given unknown
extended-key-usage OIDs, or some other connection type. -/
inductive ConnKind where
  | tls (peerOIDs : List OID)
  | other
deriving DecidableEq, Repr

/-- `verifyRole` (ssntp.go lines 906-920): on a TLS connection, derive the
certified role from the peer certificate's OIDs and reject unless it covers
the declared `role`; on any other connection, reject. -/
def verifyRole (conn : ConnKind) (role : Nat) : Bool × Option String :=
  match conn with
  | .tls peerOIDs =>
    let certRole := getRoleFromOIDs peerOIDs
    if certRole &&& role ≠ role then (false, some oidErrorMsg)
    else (true, none)
  | .other => (false, some oidErrorMsg)

/-- C2: when role verification is enabled, `verifyRole` accepts a declared
role bitmask over a TLS connection if and only if the certified role bitmask
derived from the peer certificate's OIDs covers the declared one
(`declared &&& certified = declared`); when the declared role is not covered
the call is rejected with an error. -/
theorem verifyRole_accepts_iff_covered (peerOIDs : List OID) (role : Nat) :
    verifyRole (ConnKind.tls peerOIDs) role
      = (decide (role &&& getRoleFromOIDs peerOIDs = role),
         if role &&& getRoleFromOIDs peerOIDs = role then none else some oidErrorMsg) := by
  unfold verifyRole
  rw [Nat.and_comm]
  by_cases h : role &&& getRoleFromOIDs peerOIDs = role
  · simp [h, Nat.and_comm]
  · simp [h, Nat.and_comm]

/-- C9: `verifyRole` with declared role UNKNOWN (0x0) returns true on every
TLS connection, whatever role OIDs the peer certificate carries, because
`certified &&& 0 = 0`. -/
theorem verifyRole_unknown_vacuous (peerOIDs : List OID) :
    verifyRole (ConnKind.tls peerOIDs) UNKNOWN = (true, none) := by
  unfold verifyRole UNKNOWN
  simp [Nat.and_zero]

/-- Error tags for the fallible operations of the embedding. -/
inductive SysErr where
  | mkdirLockDir
  | openUuidFile
  | openLockFile
  | readFile
  | writeFile
  | parseUUID
  | flockUn
  | x509Parse
  | noRoleFound
deriving DecidableEq, Repr

/-- `parseCertificate` (ssntp.go lines 952-976) as a function of the
outcomes of its three external steps: whether `ioutil.ReadFile` succeeds
(failure calls `log.Fatalf`, which never returns), whether `pem.Decode`
yields a block (a nil block is only logged and is then dereferenced, which
panics), and the unknown extended-key-usage OIDs produced by
`x509.ParseCertificates` (`none` when that parse fails).  `none` models the
two non-returning paths; `some (role, err)` models a normal return. -/
def parseCertificate (readOk : Bool) (pemOk : Bool) (x509Parsed : Option (List OID)) :
    Option (Nat × Option SysErr) :=
  if readOk = false then none
  else if pemOk = false then none
  else
    match x509Parsed with
    | none => some (0, some SysErr.x509Parse)
    | some oids =>
      let role := getRoleFromOIDs oids
      if role = UNKNOWN then some (role, some SysErr.noRoleFound)
      else some (role, none)

/-- C7: `parseCertificate` returns an error (so server startup fails)
exactly when the certificate cannot be parsed or its extended-key-usage
OIDs yield the UNKNOWN (0x0) role; otherwise it returns the nonzero role
bitmask derived from the certificate. -/
theorem parseCertificate_startup (x509Parsed : Option (List OID)) :
    ((∃ e, parseCertificate true true x509Parsed = some (0, some e)) ↔
        (x509Parsed = none ∨ getRoleFromOIDs (x509Parsed.getD []) = UNKNOWN))
    ∧ (∀ oids, x509Parsed = some oids → getRoleFromOIDs oids ≠ UNKNOWN →
        parseCertificate true true x509Parsed = some (getRoleFromOIDs oids, none)) := by
  constructor
  · cases x509Parsed with
    | none => simp [parseCertificate]
    | some oids =>
      by_cases h : getRoleFromOIDs oids = UNKNOWN
      · simp [parseCertificate, h, UNKNOWN]
      · simp [parseCertificate, h]
  · intro oids heq hne
    subst heq
    simp [parseCertificate, hne]

/-- Witness for C7: a certificate carrying only the agent OID parses to
role AGENT with no error. -/
theorem parseCertificate_startup_witness :
    parseCertificate true true (some [RoleAgentOID]) = some (AGENT, none) := by
  have h := (parseCertificate_startup (some [RoleAgentOID])).2 [RoleAgentOID] rfl (by decide)
  rw [h]
  rw [(by decide : getRoleFromOIDs [RoleAgentOID] = AGENT)]

/-- `nullUUID` (ssntp.go line 978). -/
def nullUUID : String := "00000000-0000-0000-0000-000000000000"

/-- The `lockedUUID` structure (ssntp.go lines 980-983): a UUID plus the
advisory-lock file descriptor, `-1` when no lock is held. -/
structure lockedUUID where
  lockFd : Int
  uuid : String
deriving DecidableEq, Repr

/-- Lowercase hexadecimal digit, as accepted by the UUID grammar of the
docker/distribution uuid package used by ssntp.go. -/
def isLowerHexDigit (c : Char) : Bool :=
  c.isDigit || ('a' ≤ c && c ≤ 'f')

/-- Canonical 36-character textual UUID form accepted by `uuid.Parse` of
the external docker/distribution uuid package: five lowercase-hex groups of
lengths 8-4-4-4-12 separated by dashes at offsets 8, 13, 18 and 23. -/
def uuidFormatOk (s : String) : Bool :=
  s.length = 36 &&
    (List.range 36).all fun i =>
      let c := s.data.getD i ' '
      if i = 8 || i = 13 || i = 18 || i = 23 then c = '-' else isLowerHexDigit c

/-- `uuid.Parse` of the external docker/distribution uuid package, at the
level of detail the identity store needs: parsing succeeds exactly on the
canonical 36-character form and renders back to the same text. -/
def uuidParse (s : String) : Option String :=
  if uuidFormatOk s then some s else none

/-- Outcomes of the external calls `newUUID` makes, in program order: the
two directory creations, the two file opens, the non-blocking exclusive
flock, the read of the UUID file, the write of a fresh UUID, and the two
UUIDs produced by `uuid.Generate()` (`genRandom` for the fallback value
generated at entry, `genWrite` for the one generated in the write branch).
`readBytes` is what the 36-byte read returns on success; `lockFdNum` is
the (non-negative) descriptor number returned for the lock file. -/
structure SysEnv where
  mkdirUuidDirErr : Bool
  mkdirLockDirErr : Bool
  openUuidFileErr : Bool
  openLockFileErr : Bool
  lockFdNum : Nat
  flockBusy : Bool
  readErr : Bool
  readBytes : String
  writeErr : Bool
  genRandom : String
  genWrite : String
deriving DecidableEq, Repr

/-- What a run of `newUUID` produces: the returned `lockedUUID`, the
returned error (`none` for a nil Go error), whether the lock-file
descriptor was opened, whether it was closed again before returning, and
the bytes written to the UUID file, if any. -/
structure NewUUIDOutcome where
  ret : lockedUUID
  err : Option SysErr
  lockFdOpened : Bool
  lockFdClosed : Bool
  written : Option String
deriving DecidableEq, Repr

/-- `newUUID` (ssntp.go lines 985-1076) as a function of the outcomes of
its external calls.  The first `os.MkdirAll` failure is only logged; the
second one and each subsequent failure return the null UUID with the
corresponding error; a busy flock closes the lock descriptor and returns
the fallback random UUID with a nil error; otherwise the UUID file's
content decides between writing a fresh UUID (read of other than 36 bytes)
and parsing the stored one (read of exactly 36 bytes).  The UUID-file
descriptor is always closed by a defer and is not tracked. -/
def newUUID (env : SysEnv) : NewUUIDOutcome :=
  let nUUID : lockedUUID := { uuid := nullUUID, lockFd := -1 }
  let randomUUID : lockedUUID := { uuid := env.genRandom, lockFd := -1 }
  if env.mkdirLockDirErr then
    { ret := nUUID, err := some SysErr.mkdirLockDir,
      lockFdOpened := false, lockFdClosed := false, written := none }
  else if env.openUuidFileErr then
    { ret := nUUID, err := some SysErr.openUuidFile,
      lockFdOpened := false, lockFdClosed := false, written := none }
  else if env.openLockFileErr then
    { ret := nUUID, err := some SysErr.openLockFile,
      lockFdOpened := false, lockFdClosed := false, written := none }
  else if env.flockBusy then
    { ret := randomUUID, err := none,
      lockFdOpened := true, lockFdClosed := true, written := none }
  else if env.readErr then
    { ret := nUUID, err := some SysErr.readFile,
      lockFdOpened := true, lockFdClosed := true, written := none }
  else if env.readBytes.length = 0 ∨ env.readBytes.length ≠ 36 then
    if env.writeErr then
      { ret := nUUID, err := some SysErr.writeFile,
        lockFdOpened := true, lockFdClosed := true, written := none }
    else
      { ret := { uuid := env.genWrite, lockFd := (env.lockFdNum : Int) }, err := none,
        lockFdOpened := true, lockFdClosed := false, written := some env.genWrite }
  else
    match uuidParse env.readBytes with
    | none =>
      { ret := nUUID, err := some SysErr.parseUUID,
        lockFdOpened := true, lockFdClosed := true, written := none }
    | some u =>
      { ret := { uuid := u, lockFd := (env.lockFdNum : Int) }, err := none,
        lockFdOpened := true, lockFdClosed := false, written := none }

/-- `freeUUID` (ssntp.go lines 1078-1090) as a function of whether the
unlocking `syscall.Flock(fd, LOCK_UN)` call fails.  The second component
records whether that unlock call was made at all. -/
def freeUUID (flockUnErr : Bool) (u : lockedUUID) : Option SysErr × Bool :=
  if u.lockFd = -1 then (none, false)
  else if flockUnErr then (some SysErr.flockUn, true)
  else (none, true)

/-- The outcome still holds the advisory lock: a real descriptor was
returned, after being opened and not closed again. -/
def holdsLock (o : NewUUIDOutcome) : Prop :=
  o.ret.lockFd ≠ -1 ∧ o.lockFdOpened = true ∧ o.lockFdClosed = false

/-- C3: when `newUUID` obtains the non-blocking exclusive advisory lock
(no earlier step failed and the flock succeeds): if the canonical UUID file
is empty or malformed (read of other than 36 bytes) a freshly generated
UUID is written to that file and returned with the lock held; if the file
contains a valid 36-character UUID, that UUID is returned with the lock
held. -/
theorem newUUID_lock_obtained (env : SysEnv)
    (hm : env.mkdirLockDirErr = false) (ho : env.openUuidFileErr = false)
    (hl : env.openLockFileErr = false) (hb : env.flockBusy = false)
    (hr : env.readErr = false) :
    (env.readBytes.length ≠ 36 → env.writeErr = false →
       (newUUID env).err = none ∧ (newUUID env).ret.uuid = env.genWrite ∧
       (newUUID env).written = some env.genWrite ∧ holdsLock (newUUID env))
    ∧ (uuidFormatOk env.readBytes = true →
       (newUUID env).err = none ∧ (newUUID env).ret.uuid = env.readBytes ∧
       (newUUID env).written = none ∧ holdsLock (newUUID env)) := by
  constructor
  · intro hlen hw
    have hcond : env.readBytes.length = 0 ∨ env.readBytes.length ≠ 36 := Or.inr hlen
    simp [newUUID, holdsLock, hm, ho, hl, hb, hr, hw, hcond]
  · intro hfmt
    have hfmt' := hfmt
    unfold uuidFormatOk at hfmt'
    rw [Bool.and_eq_true] at hfmt'
    have hlen36 : env.readBytes.length = 36 := of_decide_eq_true hfmt'.1
    have hparse : uuidParse env.readBytes = some env.readBytes := by
      simp [uuidParse, hfmt]
    simp [newUUID, holdsLock, hm, ho, hl, hb, hr, hlen36, hparse]

/-- Concrete environment for the C3 witness: every external call succeeds
and the UUID file holds the null UUID. -/
def envStored : SysEnv :=
  { mkdirUuidDirErr := false, mkdirLockDirErr := false,
    openUuidFileErr := false, openLockFileErr := false,
    lockFdNum := 3, flockBusy := false, readErr := false,
    readBytes := nullUUID, writeErr := false,
    genRandom := "r", genWrite := "w" }

/-- Witness for C3: with the null UUID stored, `newUUID` returns it with
the lock held. -/
theorem newUUID_lock_obtained_witness :
    (newUUID envStored).err = none ∧ (newUUID envStored).ret.uuid = envStored.readBytes ∧
    (newUUID envStored).written = none ∧ holdsLock (newUUID envStored) :=
  (newUUID_lock_obtained envStored rfl rfl rfl rfl rfl).2 (by decide)

/-- C4: if the advisory lock is already held by another process (the
non-blocking flock fails), `newUUID` returns success carrying the freshly
generated random UUID with no lock held (`lockFd = -1`), after closing the
lock descriptor it had opened. -/
theorem newUUID_lock_busy (env : SysEnv)
    (hm : env.mkdirLockDirErr = false) (ho : env.openUuidFileErr = false)
    (hl : env.openLockFileErr = false) (hb : env.flockBusy = true) :
    (newUUID env).err = none ∧ (newUUID env).ret.uuid = env.genRandom ∧
    (newUUID env).ret.lockFd = -1 ∧ (newUUID env).lockFdOpened = true ∧
    (newUUID env).lockFdClosed = true ∧ (newUUID env).written = none := by
  simp [newUUID, hm, ho, hl, hb]

/-- Concrete environment for the C4 witness: the flock is busy. -/
def envBusy : SysEnv :=
  { mkdirUuidDirErr := false, mkdirLockDirErr := false,
    openUuidFileErr := false, openLockFileErr := false,
    lockFdNum := 3, flockBusy := true, readErr := false,
    readBytes := "", writeErr := false,
    genRandom := "r", genWrite := "w" }

/-- Witness for C4 at `envBusy`. -/
theorem newUUID_lock_busy_witness :
    (newUUID envBusy).err = none ∧ (newUUID envBusy).ret.uuid = envBusy.genRandom ∧
    (newUUID envBusy).ret.lockFd = -1 ∧ (newUUID envBusy).lockFdOpened = true ∧
    (newUUID envBusy).lockFdClosed = true ∧ (newUUID envBusy).written = none :=
  newUUID_lock_busy envBusy rfl rfl rfl rfl

/-- C5: on every execution path of `newUUID` that returns a non-nil
error, the returned `lockedUUID` holds no lock and any lock descriptor
opened during the attempt has been closed before returning. -/
theorem newUUID_error_no_lock_leak (env : SysEnv) (e : SysErr)
    (he : (newUUID env).err = some e) :
    (newUUID env).ret.lockFd = -1 ∧
    ((newUUID env).lockFdOpened = true → (newUUID env).lockFdClosed = true) := by
  unfold newUUID at he ⊢
  cases hp : uuidParse env.readBytes with
  | none => split_ifs at he ⊢ <;> simp_all [hp]
  | some u => split_ifs at he ⊢ <;> simp_all [hp]

/-- Concrete environment for the C5 witness: the lock is obtained but the
stored 36 bytes do not parse as a UUID. -/
def envGarbage : SysEnv :=
  { mkdirUuidDirErr := false, mkdirLockDirErr := false,
    openUuidFileErr := false, openLockFileErr := false,
    lockFdNum := 3, flockBusy := false, readErr := false,
    readBytes := "zzzzzzzzzzzzzzzzzzzzzzzzzzzzzzzzzzzz", writeErr := false,
    genRandom := "r", genWrite := "w" }

/-- Witness for C5: the garbage-content error path returns no lock and has
closed the lock descriptor. -/
theorem newUUID_error_no_lock_leak_witness :
    (newUUID envGarbage).ret.lockFd = -1 ∧ (newUUID envGarbage).lockFdClosed = true :=
  ⟨(newUUID_error_no_lock_leak envGarbage SysErr.parseUUID (by decide)).1,
   (newUUID_error_no_lock_leak envGarbage SysErr.parseUUID (by decide)).2 (by decide)⟩

/-- C6: `freeUUID` drops the advisory lock iff one is held: on a
`lockedUUID` whose `lockFd` is `-1` it is a no-op returning no error, and
on one holding the lock it issues the unlock call. -/
theorem freeUUID_unlock_iff (flockUnErr : Bool) (u : lockedUUID) :
    (u.lockFd = -1 → freeUUID flockUnErr u = (none, false))
    ∧ ((freeUUID flockUnErr u).2 = true ↔ u.lockFd ≠ -1) := by
  constructor
  · intro h
    simp [freeUUID, h]
  · by_cases h : u.lockFd = -1
    · simp [freeUUID, h]
    · cases flockUnErr <;> simp [freeUUID, h]

/-- Witness for C6: releasing an unlocked value is a no-op, and releasing
a held lock issues the unlock. -/
theorem freeUUID_unlock_iff_witness :
    freeUUID false { lockFd := -1, uuid := "u" } = (none, false)
    ∧ (freeUUID false { lockFd := 3, uuid := "u" }).2 = true :=
  ⟨(freeUUID_unlock_iff false { lockFd := -1, uuid := "u" }).1 rfl,
   (freeUUID_unlock_iff false { lockFd := 3, uuid := "u" }).2.mpr (by decide)⟩

end Ssntp
